import Mathlib

/-!
Verification of the TechSuppliers validation / rate-limiting core.

Shallow embedding of `src/app.py`.  The file contains two concatenated
iterations of the same Flask application; where the two iterations define
a function differently, the later variant is embedded under a `_v2` name
(its source lines are noted at each definition).

Python strings are modelled as Lean `String`s (ASCII behaviour; the inputs
appearing in the application are ASCII).  Python `float` timestamps from
`time()` are modelled as `Int`: all comparisons performed by the code
(`now - t < window`, order of arrival) are exact order comparisons, so any
linearly ordered ring models them faithfully.
-/

namespace TechSuppliers

/-- Python `str.strip()`: remove leading and trailing whitespace
(ASCII whitespace; `app.py` only ever strips form input). -/
def pyStrip (s : String) : String :=
  ⟨((s.data.dropWhile Char.isWhitespace).reverse.dropWhile Char.isWhitespace).reverse⟩

/-- Model of `re.sub(r'[^\d]', '', s)`: keep only the (ASCII) digit characters. -/
def digitsOnly (s : String) : String :=
  ⟨s.data.filter Char.isDigit⟩

/-- The digit values of a string after `re.sub(r'[^\d]', '', s)`:
each digit character mapped to its numeric value. -/
def stripDigits (s : String) : List Nat :=
  (s.data.filter Char.isDigit).map (fun c => c.toNat - 48)

/-- Numeric value of a list of ASCII digit characters. -/
def natOfDigitChars (l : List Char) : Nat :=
  l.foldl (fun a c => a * 10 + (c.toNat - 48)) 0

/-- Python `int(s)` on an already-stripped string (also the coercion
PostgreSQL applies to a text literal bound to an INTEGER column):
an optional sign followed by a nonempty run of digits.  (Python's
underscore digit separators and non-ASCII digits are not modelled;
no claim depends on them.) -/
def pyInt (s : String) : Option Int :=
  match s.data with
  | [] => none
  | '-' :: rest =>
    if rest ≠ [] ∧ rest.all Char.isDigit then some (-(natOfDigitChars rest : Int)) else none
  | '+' :: rest =>
    if rest ≠ [] ∧ rest.all Char.isDigit then some ((natOfDigitChars rest : Int)) else none
  | l => if l.all Char.isDigit then some ((natOfDigitChars l : Int)) else none

/-- Per-character action of `html.escape(s)` (with its default `quote=True`), per character:
`&` `<` `>` `"` `'` become their entities, everything else is unchanged. -/
def escapeChar (c : Char) : List Char :=
  if c = '&' then ['&', 'a', 'm', 'p', ';']
  else if c = '<' then ['&', 'l', 't', ';']
  else if c = '>' then ['&', 'g', 't', ';']
  else if c = Char.ofNat 34 then ['&', 'q', 'u', 'o', 't', ';']
  else if c = Char.ofNat 39 then ['&', '#', 'x', '2', '7', ';']
  else [c]

/-- Model of `html.escape` on a whole string. -/
def htmlEscape (s : String) : String :=
  ⟨(s.data.map escapeChar).flatten⟩

/-- The characters removed by `re.sub(r'[;\"\']', '', texto)`:
semicolon, double quote, single quote. -/
def isSqlPunct (c : Char) : Bool :=
  c = ';' || c = Char.ofNat 34 || c = Char.ofNat 39

/-- First-iteration `sanitizar_input` (src/app.py lines 66-73):
`None` becomes `""`; otherwise strip, HTML-escape, then delete `;` `"` `'`. -/
def sanitizar_input (texto : Option String) : String :=
  match texto with
  | none => ""
  | some t => ⟨(htmlEscape (pyStrip t)).data.filter (fun c => !isSqlPunct c)⟩

/-- Second-iteration `sanitizar_input` (src/app.py lines 583-589):
`None` becomes `""`; otherwise strip and HTML-escape only — the
`re.sub(r'[;\"\']', '', ...)` step of the first iteration is absent. -/
def sanitizar_input_v2 (texto : Option String) : String :=
  match texto with
  | none => ""
  | some t => htmlEscape (pyStrip t)

/-- Character class `[a-zA-Z0-9._%+-]` (local part of the email regex). -/
def emailLocalChar (c : Char) : Bool :=
  c.isAlphanum || c = '.' || c = '_' || c = '%' || c = '+' || c = '-'

/-- Character class `[a-zA-Z0-9.-]` (domain part of the email regex). -/
def emailDomainChar (c : Char) : Bool :=
  c.isAlphanum || c = '.' || c = '-'

/-- Split a character list at every occurrence of `sep` (occurrences are
dropped; empty segments are kept, as in Python's `str.split(sep)`). -/
def splitOnChar (sep : Char) : List Char → List (List Char)
  | [] => [[]]
  | x :: xs =>
    match splitOnChar sep xs with
    | [] => [[]]
    | y :: ys => if x = sep then [] :: y :: ys else (x :: y) :: ys

/-- Model of `validar_email` (src/app.py lines 75-78 and 591-594, identical in both
iterations): `re.match(r'^[a-zA-Z0-9._%+-]+@[a-zA-Z0-9.-]+\.[a-zA-Z]{2,}$', s)`.
The regex language decomposes uniquely: the classes exclude `@`, so the
string splits at its single `@`; the final `[a-zA-Z]{2,}` contains no dot,
so its dot is the last dot of the domain side.  (Python's `$` also matching
before one trailing newline is not modelled; no claim depends on it.) -/
def validar_email (s : String) : Bool :=
  match splitOnChar '@' s.data with
  | [l, r] =>
    (!l.isEmpty) && l.all emailLocalChar &&
      (match (splitOnChar '.' r).reverse with
       | tld :: d1 :: drest =>
         let dom := List.intercalate ['.'] (List.reverse (d1 :: drest))
         (!dom.isEmpty) && dom.all emailDomainChar &&
           decide (2 ≤ tld.length) && tld.all Char.isAlpha
       | _ => false)
  | _ => false

/-- The check digit computed by the loop body of `validar_cpf`
(src/app.py lines 86-90): `soma = sum(int(cpf[j]) * ((i+1) - j) for j in
range(0, i))`, `digito = 11 - soma % 11`, mapped to 0 when above 9. -/
def cpfCheckDigit (ds : List Nat) (i : Nat) : Nat :=
  let soma := ((List.range i).map (fun j => ds.getD j 0 * (i + 1 - j))).sum
  let digito := 11 - soma % 11
  if digito > 9 then 0 else digito

/-- Model of `validar_cpf` (src/app.py lines 80-93): strip non-digits, reject unless
exactly 11 digits and not all identical, then require both check digits
(positions with index 9 and 10) to match. -/
def validar_cpf (s : String) : Bool :=
  let cpf := stripDigits s
  if cpf.length ≠ 11 then false
  else if cpf = List.replicate 11 (cpf.headD 0) then false
  else decide (cpfCheckDigit cpf 9 = cpf.getD 9 0) &&
       decide (cpfCheckDigit cpf 10 = cpf.getD 10 0)

/-- The check digit computed by the loop body of `validar_cnpj`
(src/app.py lines 101-109): the weight `peso` starts at 2 for the first
check digit (`i = 12`) but at **3** for the second (`i = 13`), is applied
to digits `j = i-1` down to `0`, and after each digit is incremented,
resetting to 2 after 9; `digito = 11 - soma % 11`, mapped to 0 above 9. -/
def cnpjCheckDigit (ds : List Nat) (i : Nat) : Nat :=
  let start : Nat := if i = 12 then 2 else 3
  let f := fun (acc : Nat × Nat) (j : Nat) =>
    (acc.1 + ds.getD j 0 * acc.2, if acc.2 < 9 then acc.2 + 1 else 2)
  let soma := (((List.range i).reverse).foldl f (0, start)).1
  let digito := 11 - soma % 11
  if digito > 9 then 0 else digito

/-- Model of `validar_cnpj` (src/app.py lines 95-112): strip non-digits, reject
unless exactly 14 digits and not all identical, then require both check
digits (indices 12 and 13) to match `cnpjCheckDigit`. -/
def validar_cnpj (s : String) : Bool :=
  let cnpj := stripDigits s
  if cnpj.length ≠ 14 then false
  else if cnpj = List.replicate 14 (cnpj.headD 0) then false
  else decide (cnpjCheckDigit cnpj 12 = cnpj.getD 12 0) &&
       decide (cnpjCheckDigit cnpj 13 = cnpj.getD 13 0)

/-- The CNPJ check digit as the specification describes it: the weights
cycle 2..9 (resetting to 2 after reaching 9) traversing the digits
right-to-left starting — with weight 2 — at the position immediately
before the check digit being computed; same remainder-to-zero rule.
This is the standard CNPJ checksum. -/
def cnpjSpecCheckDigit (ds : List Nat) (i : Nat) : Nat :=
  let f := fun (acc : Nat × Nat) (j : Nat) =>
    (acc.1 + ds.getD j 0 * acc.2, if acc.2 < 9 then acc.2 + 1 else 2)
  let soma := (((List.range i).reverse).foldl f (0, 2)).1
  let digito := 11 - soma % 11
  if digito > 9 then 0 else digito

/-- CNPJ validity as the specification describes it (standard algorithm):
14 digits, not all identical, both check digits match `cnpjSpecCheckDigit`. -/
def validar_cnpj_spec (s : String) : Bool :=
  let cnpj := stripDigits s
  if cnpj.length ≠ 14 then false
  else if cnpj = List.replicate 14 (cnpj.headD 0) then false
  else decide (cnpjSpecCheckDigit cnpj 12 = cnpj.getD 12 0) &&
       decide (cnpjSpecCheckDigit cnpj 13 = cnpj.getD 13 0)

/-- First-iteration `validar_telefone` (src/app.py lines 114-117):
strip non-digits; valid iff 10 or 11 digits remain and the first digit
character is one of `'1'`..`'9'`. -/
def validar_telefone (s : String) : Bool :=
  let t := s.data.filter Char.isDigit
  (decide (t.length = 10) || decide (t.length = 11)) &&
    (t.headD '0' ∈ ['1', '2', '3', '4', '5', '6', '7', '8', '9'])

/-- Second-iteration `validar_telefone` (src/app.py lines 596-599):
strip non-digits; valid iff 10 or 11 digits remain.  The first-digit
restriction of the first iteration is absent. -/
def validar_telefone_v2 (s : String) : Bool :=
  let t := s.data.filter Char.isDigit
  decide (t.length = 10) || decide (t.length = 11)

/-- Model of `validar_senha` (src/app.py lines 119-131): at least 8 characters and
at least one uppercase letter, one lowercase letter, one digit, and one
character outside `[A-Za-z0-9]`. -/
def validar_senha (s : String) : Bool :=
  decide (8 ≤ s.length) && s.data.any Char.isUpper && s.data.any Char.isLower &&
    s.data.any Char.isDigit && s.data.any (fun c => !c.isAlphanum)

/-- One pass of the `rate_limit` decorator body for a single address
(src/app.py lines 48-59; the second iteration, lines 562-576, differs only
in materialising the `defaultdict` default `[]` explicitly and is
behaviourally identical): evict the timestamps `t` with
`¬ (now - t < window)`, reject with 429 when at least `max_requests`
remain (recording nothing), else record `now` and allow. -/
def rateLimitStep (maxRequests : Nat) (window : Int) (now : Int) (ts : List Int) :
    Bool × List Int :=
  let kept := ts.filter (fun t => now - t < window)
  if maxRequests ≤ kept.length then (false, kept)
  else (true, kept ++ [now])

/-- The rate-limiter pass as the specification words it: first evict every
timestamp `t` with `now - t ≥ window`, then reject if the remaining count
is `≥ max_requests`, else append the current timestamp and allow. -/
def rateLimitStep_spec (maxRequests : Nat) (window : Int) (now : Int) (ts : List Int) :
    Bool × List Int :=
  let kept := ts.filter (fun t => !(window ≤ now - t))
  if kept.length ≥ maxRequests then (false, kept)
  else (true, kept ++ [now])

/-- Run a sequence of requests against one address's timestamp list; each
request carries its endpoint's `max_requests` and its arrival time (the
`window` is 60 for every decorated endpoint).  Returns the per-request
allow/reject outcomes and the final timestamp list. -/
def rlRun (window : Int) : List (Nat × Int) → List Int → List Bool × List Int
  | [], ts => ([], ts)
  | (m, now) :: rest, ts =>
    let p := rateLimitStep m window now ts
    let q := rlRun window rest p.2
    (p.1 :: q.1, q.2)

/-- The `rate_limit` decorator acting on the single module-level map
`request_times` (src/app.py lines 26-29): the map is keyed by the client
address only — the endpoint identity enters solely through its
`max_requests`/`window` arguments, and every endpoint reads and writes the
same per-address list. -/
def rateLimitIp (maxRequests : Nat) (window : Int) (ip : String) (now : Int)
    (st : String → List Int) : Bool × (String → List Int) :=
  let p := rateLimitStep maxRequests window now (st ip)
  (p.1, fun j => if j = ip then p.2 else st j)

/-- A sequence of requests from one address against the shared
`request_times` map; each request carries the `max_requests` of the
endpoint it hits (10 for `login_cliente`/`cadastrar` endpoints, 30 for the
`fornecedores_json`/`clientes_json` listing endpoints). -/
def runShared (ip : String) (window : Int) :
    List (Nat × Int) → (String → List Int) → List Bool × (String → List Int)
  | [], st => ([], st)
  | (m, now) :: rest, st =>
    let p := rateLimitIp m window ip now st
    let q := runShared ip window rest p.2
    (p.1 :: q.1, q.2)

/-- Modelled from the spec: `werkzeug.security.generate_password_hash`,
the external credential-store primitive (§4.4 of the specification); the
application only ever stores its result and feeds it back to
`check_password_hash`, so an injective stand-in suffices — no claim
depends on the hash's internal format. -/
def hashSenha (senha : String) : String :=
  "scrypt:" ++ senha

/-- A row of the `clientes` table (src/app.py lines 169-182). -/
structure Cliente where
  id : Nat
  nome : String
  idade : Int
  email : String
  telefone : String
  endereco : String
  genero : String
  cpf : String
  senha : String
deriving DecidableEq, Repr

/-- The Flask session established by the client handlers: `cliente_id`,
`cliente_nome`, and (first iteration only) `cliente_email`. -/
structure Sessao where
  cliente_id : Nat
  cliente_nome : String
  cliente_email : Option String
deriving DecidableEq, Repr

/-- Outcome of one registration request: HTTP status, response message,
the `clientes` table after the request, and the session established (if
any). -/
structure HandlerResult where
  status : Nat
  mensagem : String
  db : List Cliente
  sess : Option Sessao
deriving DecidableEq, Repr

/-- The next `SERIAL` primary key for an insert. -/
def nextId (db : List Cliente) : Nat :=
  db.foldl (fun m r => max m r.id) 0 + 1

/-- The form fields read by `cadastrar_cliente` via `request.form.get`
(absent fields default to `""`, which is how `get(name, '')` behaves). -/
structure ClientForm where
  nome : String
  idade : String
  email : String
  telefone : String
  endereco : String
  genero : String
  cpf : String
  senha : String
  confirmarSenha : String
deriving DecidableEq, Repr

/-- Python `str.lower()` (ASCII case folding). -/
def pyLower (s : String) : String :=
  ⟨s.data.map Char.toLower⟩

/-- The gender normalisation map of src/app.py line 414:
`{'masculino': 'M', 'feminino': 'F', 'outro': 'O', 'm': 'M', 'f': 'F',
'o': 'O'}.get(..., None)`. -/
def generoMap (g : String) : Option String :=
  if g = "masculino" ∨ g = "m" then some "M"
  else if g = "feminino" ∨ g = "f" then some "F"
  else if g = "outro" ∨ g = "o" then some "O"
  else none

/-- First-iteration `cadastrar_cliente` (src/app.py lines 374-452),
relative to a given `clientes` table.  The duplicate pre-check and the
insert are the two database interactions; `SELECT * FROM clientes WHERE
email = %s` after the insert returns the just-inserted row (the duplicate
check guarantees it is the unique row with that email).  VARCHAR width
limits are not modelled (every value the handler can insert here fits
them). -/
def cadastrar_cliente (form : ClientForm) (db : List Cliente) : HandlerResult :=
  let nome := sanitizar_input (some form.nome)
  let idade_str := sanitizar_input (some form.idade)
  let email := sanitizar_input (some form.email)
  let telefone := sanitizar_input (some form.telefone)
  let endereco := sanitizar_input (some form.endereco)
  let genero := sanitizar_input (some form.genero)
  let cpf := sanitizar_input (some form.cpf)
  let senha := form.senha
  if nome = "" ∨ idade_str = "" ∨ email = "" ∨ telefone = "" ∨ endereco = "" ∨
      genero = "" ∨ cpf = "" ∨ senha = "" then
    ⟨400, "Todos os campos são obrigatórios.", db, none⟩
  else if senha ≠ form.confirmarSenha then
    ⟨400, "As senhas não coincidem.", db, none⟩
  else if ¬ validar_senha senha then
    ⟨400, "Senha fraca. Use pelo menos 8 caracteres incluindo maiúsculas, minúsculas, números e símbolos.", db, none⟩
  else if ¬ validar_email email then
    ⟨400, "Email inválido.", db, none⟩
  else if ¬ validar_telefone telefone then
    ⟨400, "Telefone inválido.", db, none⟩
  else if ¬ validar_cpf (digitsOnly cpf) then
    ⟨400, "CPF inválido.", db, none⟩
  else
    match pyInt idade_str with
    | none => ⟨400, "Idade deve ser um número válido.", db, none⟩
    | some idade =>
      if idade < 18 ∨ 120 < idade then
        ⟨400, "Idade deve estar entre 18 e 120 anos.", db, none⟩
      else
        match generoMap (pyStrip (pyLower genero)) with
        | none => ⟨400, "Gênero inválido.", db, none⟩
        | some g =>
          let senha_hash := hashSenha senha
          if db.any (fun r => r.email = email ∨ r.cpf = cpf) then
            ⟨400, "Email ou CPF já cadastrado.", db, none⟩
          else
            let novo : Cliente :=
              ⟨nextId db, nome, idade, email, telefone, endereco, g, cpf, senha_hash⟩
            ⟨200, "Cliente cadastrado com sucesso!", db ++ [novo],
              some ⟨novo.id, novo.nome, some novo.email⟩⟩

/-- Second-iteration `cadastrar_cliente` (src/app.py lines 815-882):
`idade` is taken raw (line 821) and never validated; no telephone, CPF,
gender, or password-strength validation; the INSERT binds the raw `idade`
string to the INTEGER column, so PostgreSQL coerces it (`pyInt`); a
failing coercion raises, is caught, and yields the 500 response with the
table unchanged (the transaction is never committed).  The second
iteration's `clientes` schema (lines 632-645) carries no CHECK constraint
on `idade`.  Its session stores no `cliente_email`. -/
def cadastrar_cliente_v2 (form : ClientForm) (db : List Cliente) : HandlerResult :=
  let nome := sanitizar_input_v2 (some form.nome)
  let idade := form.idade
  let email := sanitizar_input_v2 (some form.email)
  let telefone := sanitizar_input_v2 (some form.telefone)
  let endereco := sanitizar_input_v2 (some form.endereco)
  let genero := sanitizar_input_v2 (some form.genero)
  let cpf := sanitizar_input_v2 (some form.cpf)
  let senha := form.senha
  if nome = "" ∨ idade = "" ∨ email = "" ∨ telefone = "" ∨ endereco = "" ∨
      genero = "" ∨ cpf = "" ∨ senha = "" then
    ⟨400, "Todos os campos são obrigatórios.", db, none⟩
  else if senha ≠ form.confirmarSenha then
    ⟨400, "As senhas não coincidem.", db, none⟩
  else if senha.length < 6 then
    ⟨400, "Senha deve ter pelo menos 6 caracteres.", db, none⟩
  else if ¬ validar_email email then
    ⟨400, "Email inválido.", db, none⟩
  else
    let senha_hash := hashSenha senha
    if db.any (fun r => r.email = email ∨ r.cpf = cpf) then
      ⟨400, "Email ou CPF já cadastrado.", db, none⟩
    else
      match pyInt idade with
      | none => ⟨500, "Erro interno do servidor.", db, none⟩
      | some v =>
        let novo : Cliente :=
          ⟨nextId db, nome, v, email, telefone, endereco, genero, cpf, senha_hash⟩
        ⟨200, "Cliente cadastrado com sucesso!", db ++ [novo],
          some ⟨novo.id, novo.nome, none⟩⟩

/-- The guards of the first-iteration `cadastrar_cliente` that precede its
duplicate-key check (all fields present, passwords match and are strong,
email/telephone/CPF valid, age parses into [18,120], gender in the enum). -/
def v1PreChecks (form : ClientForm) : Bool :=
  let nome := sanitizar_input (some form.nome)
  let idade_str := sanitizar_input (some form.idade)
  let email := sanitizar_input (some form.email)
  let telefone := sanitizar_input (some form.telefone)
  let endereco := sanitizar_input (some form.endereco)
  let genero := sanitizar_input (some form.genero)
  let cpf := sanitizar_input (some form.cpf)
  let senha := form.senha
  !(decide (nome = "" ∨ idade_str = "" ∨ email = "" ∨ telefone = "" ∨ endereco = "" ∨
      genero = "" ∨ cpf = "" ∨ senha = "")) &&
    decide (senha = form.confirmarSenha) && validar_senha senha &&
    validar_email email && validar_telefone telefone && validar_cpf (digitsOnly cpf) &&
    (match pyInt idade_str with
     | none => false
     | some idade => !decide (idade < 18 ∨ 120 < idade)) &&
    (generoMap (pyStrip (pyLower genero))).isSome

/-- The guards of the second-iteration `cadastrar_cliente` that precede
its duplicate-key check. -/
def v2PreChecks (form : ClientForm) : Bool :=
  let nome := sanitizar_input_v2 (some form.nome)
  let email := sanitizar_input_v2 (some form.email)
  let telefone := sanitizar_input_v2 (some form.telefone)
  let endereco := sanitizar_input_v2 (some form.endereco)
  let genero := sanitizar_input_v2 (some form.genero)
  let cpf := sanitizar_input_v2 (some form.cpf)
  let senha := form.senha
  !(decide (nome = "" ∨ form.idade = "" ∨ email = "" ∨ telefone = "" ∨ endereco = "" ∨
      genero = "" ∨ cpf = "" ∨ senha = "")) &&
    decide (senha = form.confirmarSenha) && !decide (senha.length < 6) &&
    validar_email email

/-- The `idade` field of a first-iteration registration request is
non-numeric or parses outside [18,120]. -/
def v1BadAge (form : ClientForm) : Bool :=
  match pyInt (sanitizar_input (some form.idade)) with
  | none => true
  | some idade => decide (idade < 18 ∨ 120 < idade)

/-- The first CPF check digit as the specification words it: weighted sum
of the first nine digits with weights descending from 10 down to 2,
`11 - (sum mod 11)`, mapped to 0 when the computed value is at least 10. -/
def cpfSpecDigit1 (ds : List Nat) : Nat :=
  let soma := (List.zipWith (fun d w => d * w) (ds.take 9) [10, 9, 8, 7, 6, 5, 4, 3, 2]).sum
  let digito := 11 - soma % 11
  if 10 ≤ digito then 0 else digito

/-- The second CPF check digit as the specification words it: weighted sum
of the first ten digits with weights descending from 11 down to 2, with
the same remainder-to-zero rule. -/
def cpfSpecDigit2 (ds : List Nat) : Nat :=
  let soma := (List.zipWith (fun d w => d * w) (ds.take 10) [11, 10, 9, 8, 7, 6, 5, 4, 3, 2]).sum
  let digito := 11 - soma % 11
  if 10 ≤ digito then 0 else digito

/-- CPF validity as the specification words it: after stripping
non-digits, exactly 11 digits, not all identical, and both supplied check
digits equal the computed ones. -/
def validate_cpf_spec (s : String) : Bool :=
  let ds := stripDigits s
  decide (ds.length = 11) && !(decide (ds = List.replicate 11 (ds.headD 0))) &&
    decide (cpfSpecDigit1 ds = ds.getD 9 0) && decide (cpfSpecDigit2 ds = ds.getD 10 0)

/-- Telephone validity as the specification words it: after stripping
non-digits, 10 or 11 digits remain and the first digit is between 1 and 9. -/
def telefone_spec (s : String) : Prop :=
  ((stripDigits s).length = 10 ∨ (stripDigits s).length = 11) ∧
    1 ≤ (stripDigits s).headD 0 ∧ (stripDigits s).headD 0 ≤ 9

/-- Render a list of digit values as the string of their digit characters
(used to realise a digit-list mutation as a concrete input string). -/
def digitsToString (ds : List Nat) : String :=
  ⟨ds.map (fun d => Char.ofNat (d + 48))⟩

/-- The row inserted by the first-iteration handler for `formAna` on an
empty table (used as a concrete witness). -/
def rowAna : Cliente :=
  ⟨1, "Ana", 30, "a@b.co", "11987654321", "Rua 1", "F", "52998224725", hashSenha "Abcdef1!"⟩

/-- A well-formed registration form (used as the concrete witness input:
`52998224725` satisfies the CPF checksum). -/
def formAna : ClientForm :=
  ⟨"Ana", "30", "a@b.co", "11987654321", "Rua 1", "f", "52998224725", "Abcdef1!", "Abcdef1!"⟩

/-- An existing client row holding the same CPF as `formAna`. -/
def rowBea : Cliente :=
  ⟨1, "Bea", 20, "x@y.co", "1122334455", "Rua 2", "F", "52998224725", hashSenha "Qwerty1!"⟩

/-- A registration form whose `idade` field is `"5"` (below 18) but whose
other fields pass every check the second-iteration handler performs. -/
def formFive : ClientForm :=
  ⟨"Bob", "5", "a@b.co", "11987654321", "Rua", "f", "52998224725", "secret1", "secret1"⟩

/-! Helper lemmas. -/

theorem char_digit_bounds {c : Char} (h : c.isDigit = true) : 48 ≤ c.toNat ∧ c.toNat ≤ 57 := by
  simp only [Char.isDigit, Bool.and_eq_true, decide_eq_true_eq] at h
  obtain ⟨h1, h2⟩ := h
  rw [ge_iff_le] at h1
  rw [UInt32.le_def, BitVec.le_def] at h1 h2
  exact ⟨h1, h2⟩

theorem digit_char_mem (c : Char) (hd : c.isDigit = true) :
    (c ∈ ['1', '2', '3', '4', '5', '6', '7', '8', '9']) ↔
      (1 ≤ c.toNat - 48 ∧ c.toNat - 48 ≤ 9) := by
  obtain ⟨h1, h2⟩ := char_digit_bounds hd
  obtain ⟨n, hc, hl, hr⟩ : ∃ n, c = Char.ofNat n ∧ 48 ≤ n ∧ n ≤ 57 :=
    ⟨c.toNat, (Char.ofNat_toNat c).symm, h1, h2⟩
  subst hc
  interval_cases n <;> decide

theorem stripDigits_lt_ten (s : String) : ∀ d ∈ stripDigits s, d < 10 := by
  intro d hd
  simp only [stripDigits, List.mem_map] at hd
  obtain ⟨c, hc, rfl⟩ := hd
  have := char_digit_bounds (List.mem_filter.mp hc).2
  omega

theorem digit_char_roundtrip :
    ∀ d, d < 10 →
      ((Char.ofNat (d + 48)).isDigit = true ∧ (Char.ofNat (d + 48)).toNat - 48 = d) := by
  decide

theorem filter_map_digits (ds : List Nat) (h : ∀ d ∈ ds, d < 10) :
    ((ds.map (fun d => Char.ofNat (d + 48))).filter Char.isDigit).map
      (fun c => c.toNat - 48) = ds := by
  induction ds with
  | nil => rfl
  | cons d rest ih =>
    have hd : d < 10 := h d (List.mem_cons_self _ _)
    have hr := ih (fun x hx => h x (List.mem_cons_of_mem _ hx))
    simp only [List.map_cons, List.filter_cons, (digit_char_roundtrip d hd).1, if_true,
      (digit_char_roundtrip d hd).2, hr]

theorem stripDigits_digitsToString (ds : List Nat) (h : ∀ d ∈ ds, d < 10) :
    stripDigits (digitsToString ds) = ds :=
  filter_map_digits ds h

theorem getD_set_ne_zero (l : List Nat) (k j d : Nat) (h : k ≠ j) :
    (l.set k d).getD j 0 = l.getD j 0 := by
  rw [List.getD_eq_getElem?_getD, List.getD_eq_getElem?_getD, List.getElem?_set_ne h]

theorem getD_set_self_zero (l : List Nat) (k d : Nat) (hk : k < l.length) :
    (l.set k d).getD k 0 = d := by
  rw [List.getD_eq_getElem?_getD, List.getElem?_set_eq_of_lt d hk]
  rfl

theorem cpfCheckDigit_set (ds : List Nat) (k i d : Nat) (h : i ≤ k) :
    cpfCheckDigit (ds.set k d) i = cpfCheckDigit ds i := by
  have hmap : (List.range i).map (fun j => (ds.set k d).getD j 0 * (i + 1 - j)) =
      (List.range i).map (fun j => ds.getD j 0 * (i + 1 - j)) := by
    refine List.map_congr_left ?_
    intro j hj
    have hji : j < i := List.mem_range.mp hj
    rw [getD_set_ne_zero _ _ _ _ (by omega)]
  simp only [cpfCheckDigit, hmap]

theorem cpf_digits_eq (a b c d e f g h i j k : Nat) :
    cpfCheckDigit [a, b, c, d, e, f, g, h, i, j, k] 9 =
        cpfSpecDigit1 [a, b, c, d, e, f, g, h, i, j, k] ∧
      cpfCheckDigit [a, b, c, d, e, f, g, h, i, j, k] 10 =
        cpfSpecDigit2 [a, b, c, d, e, f, g, h, i, j, k] :=
  ⟨rfl, rfl⟩

theorem exists_eleven (l : List Nat) (hlen : l.length = 11) :
    ∃ d0 d1 d2 d3 d4 d5 d6 d7 d8 d9 d10,
      l = [d0, d1, d2, d3, d4, d5, d6, d7, d8, d9, d10] := by
  rcases l with _ | ⟨d0, l⟩
  · simp at hlen
  rcases l with _ | ⟨d1, l⟩
  · simp at hlen
  rcases l with _ | ⟨d2, l⟩
  · simp at hlen
  rcases l with _ | ⟨d3, l⟩
  · simp at hlen
  rcases l with _ | ⟨d4, l⟩
  · simp at hlen
  rcases l with _ | ⟨d5, l⟩
  · simp at hlen
  rcases l with _ | ⟨d6, l⟩
  · simp at hlen
  rcases l with _ | ⟨d7, l⟩
  · simp at hlen
  rcases l with _ | ⟨d8, l⟩
  · simp at hlen
  rcases l with _ | ⟨d9, l⟩
  · simp at hlen
  rcases l with _ | ⟨d10, l⟩
  · simp at hlen
  rcases l with _ | ⟨d11, l⟩
  · exact ⟨d0, d1, d2, d3, d4, d5, d6, d7, d8, d9, d10, rfl⟩
  · simp only [List.length_cons, List.length_nil] at hlen
    omega

theorem rlRun_append (w : Int) (a b : List (Nat × Int)) (st : List Int) :
    rlRun w (a ++ b) st =
      ((rlRun w a st).1 ++ (rlRun w b (rlRun w a st).2).1, (rlRun w b (rlRun w a st).2).2) := by
  induction a generalizing st with
  | nil => simp [rlRun]
  | cons p rest ih =>
    obtain ⟨m, now⟩ := p
    simp only [List.cons_append, rlRun, List.append_eq]
    rw [ih]

theorem rlRun_uniform_allowed (w : Int) (m : Nat) (ts : List Int) :
    ∀ (st : List Int),
      (∀ t' ∈ ts, ∀ t ∈ st, t' - t < w) →
      (∀ t' ∈ ts, ∀ u ∈ ts, t' - u < w) →
      st.length + ts.length ≤ m →
      rlRun w (ts.map (fun t => (m, t))) st = (List.replicate ts.length true, st ++ ts) := by
  induction ts with
  | nil => intro st _ _ _; simp [rlRun]
  | cons t rest ih =>
    intro st hst hpair hcap
    have hkeep : st.filter (fun x => decide (t - x < w)) = st :=
      List.filter_eq_self.mpr (fun x hx => decide_eq_true (hst t (by simp) x hx))
    have hlen : ¬ (m ≤ st.length) := by
      simp only [List.length_cons] at hcap; omega
    have hrec := ih (st ++ [t])
      (fun t' ht' x hx => by
        rcases List.mem_append.mp hx with hx | hx
        · exact hst t' (List.mem_cons_of_mem _ ht') x hx
        · have hxt : x = t := List.mem_singleton.mp hx
          rw [hxt]
          exact hpair t' (List.mem_cons_of_mem _ ht') t (List.mem_cons_self _ _))
      (fun t' ht' u hu =>
        hpair t' (List.mem_cons_of_mem _ ht') u (List.mem_cons_of_mem _ hu))
      (by simp only [List.length_append, List.length_cons, List.length_nil] at hcap ⊢; omega)
    simp only [List.map_cons, rlRun, rateLimitStep, hkeep, if_neg hlen, hrec,
      List.length_cons, List.replicate_succ, List.append_assoc, List.singleton_append]

theorem runShared_eq_rlRun (ip : String) (w : Int) (reqs : List (Nat × Int)) :
    ∀ st : String → List Int,
      (runShared ip w reqs st).1 = (rlRun w reqs (st ip)).1 ∧
      (runShared ip w reqs st).2 ip = (rlRun w reqs (st ip)).2 := by
  induction reqs with
  | nil => intro st; exact ⟨rfl, rfl⟩
  | cons p rest ih =>
    obtain ⟨m, now⟩ := p
    intro st
    have hupd : ((rateLimitIp m w ip now st).2) ip = (rateLimitStep m w now (st ip)).2 := by
      simp [rateLimitIp]
    have h1 : (rateLimitIp m w ip now st).1 = (rateLimitStep m w now (st ip)).1 := rfl
    have hrec := ih (rateLimitIp m w ip now st).2
    constructor
    · simp only [runShared, rlRun, h1, hrec.1, hupd]
    · simp only [runShared, rlRun, hrec.2, hupd]

/-! Claim theorems. -/

/-- C1 (code bug): `validar_cnpj` should implement the standard CNPJ
checksum described by the claim (`validar_cnpj_spec`, weight cycle 2..9
starting at 2 for both check digits), but its second check digit starts
the weight cycle at 3 (src/app.py line 102).  Consequently it rejects the
standard-valid CNPJ 11222333000181 — which the claim says it accepts —
and accepts 11222333000180, which fails the standard checksum — which the
claim says it rejects. -/
theorem cnpj_code_bug_eval :
    validar_cnpj "11222333000181" = false ∧ validar_cnpj_spec "11222333000181" = true ∧
    validar_cnpj "11222333000180" = true ∧ validar_cnpj_spec "11222333000180" = false ∧
    validar_cnpj "00000000000191" = false ∧ validar_cnpj_spec "00000000000191" = true := by
  decide

/-- C2: the rate-limiter pass equals the specification's
evict-then-check-then-append description, and with `max_requests = 3`,
`window = 60`, four requests from one address within one second are
allowed, allowed, allowed, rejected, and a request more than 60 seconds
after the first three is allowed again. -/
theorem rate_limit_step_spec_and_burst :
    (∀ (m : Nat) (w now : Int) (ts : List Int),
      rateLimitStep m w now ts = rateLimitStep_spec m w now ts) ∧
    (∀ t1 t2 t3 t4 t5 : Int, t1 ≤ t2 → t2 ≤ t3 → t3 ≤ t4 → t4 - t1 ≤ 1 → 60 < t5 - t3 →
      rlRun 60 [(3, t1), (3, t2), (3, t3), (3, t4), (3, t5)] [] =
        ([true, true, true, false, true], [t5])) := by
  constructor
  · intro m w now ts
    have hf : ts.filter (fun t => decide (now - t < w)) =
        ts.filter (fun t => !(decide (w ≤ now - t))) := by
      refine List.filter_congr ?_
      intro a _
      simp only [← decide_not]
      rw [decide_eq_decide]
      omega
    simp only [rateLimitStep, rateLimitStep_spec, hf]
  · intro t1 t2 t3 t4 t5 h12 h23 h34 hwin hgap
    have hfirst := rlRun_uniform_allowed 60 3 [t1, t2, t3] []
      (by intro a _ b hb; simp at hb)
      (by
        intro a ha b hb
        simp only [List.mem_cons, List.not_mem_nil, or_false] at ha hb
        rcases ha with rfl | rfl | rfl <;> rcases hb with rfl | rfl | rfl <;> omega)
      (by simp)
    have hsplit := rlRun_append 60 [(3, t1), (3, t2), (3, t3)] [(3, t4), (3, t5)] []
    show rlRun 60 ([(3, t1), (3, t2), (3, t3)] ++ [(3, t4), (3, t5)]) [] = _
    rw [hsplit]
    have hfst : rlRun 60 [(3, t1), (3, t2), (3, t3)] [] = ([true, true, true], [t1, t2, t3]) := by
      simpa using hfirst
    rw [hfst]
    have hfil4 : List.filter (fun x => decide (t4 - x < 60)) [t1, t2, t3] = [t1, t2, t3] :=
      List.filter_eq_self.mpr (by
        intro a ha
        simp only [List.mem_cons, List.not_mem_nil, or_false] at ha
        rcases ha with rfl | rfl | rfl <;> exact decide_eq_true (by omega))
    have hfil5 : List.filter (fun x => decide (t5 - x < 60)) [t1, t2, t3] = [] := by
      simp only [List.filter_cons, List.filter_nil, decide_eq_true_eq]
      rw [if_neg (by omega), if_neg (by omega), if_neg (by omega)]
    have hstep4 : rateLimitStep 3 60 t4 [t1, t2, t3] = (false, [t1, t2, t3]) := by
      simp only [rateLimitStep]
      rw [hfil4]
      simp
    have hstep5 : rateLimitStep 3 60 t5 [t1, t2, t3] = (true, [t5]) := by
      simp only [rateLimitStep]
      rw [hfil5]
      simp
    simp only [rlRun, hstep4, hstep5]
    simp

/-- Witness for C2: the burst scenario at concrete times 0, 0, 0, 0, 61. -/
theorem rate_limit_step_spec_and_burst_witness :
    rlRun 60 [(3, 0), (3, 0), (3, 0), (3, 0), (3, 61)] [] =
      ([true, true, true, false, true], [61]) :=
  rate_limit_step_spec_and_burst.2 0 0 0 0 61 (by decide) (by decide) (by decide)
    (by decide) (by decide)

/-- C4: when the rate limiter rejects, the stored list for the address is
exactly the post-eviction list (the rejected attempt's timestamp is not
recorded), at least `max_requests` timestamps survive the eviction, and a
later request is treated exactly as if the rejected attempt had never
happened. -/
theorem rate_limit_reject_state (m : Nat) (w now nxt : Int) (ts : List Int)
    (hrej : (rateLimitStep m w now ts).1 = false) (hle : now ≤ nxt) :
    (rateLimitStep m w now ts).2 = ts.filter (fun t => now - t < w) ∧
    m ≤ (ts.filter (fun t => now - t < w)).length ∧
    rateLimitStep m w nxt (rateLimitStep m w now ts).2 = rateLimitStep m w nxt ts := by
  by_cases h : m ≤ (ts.filter (fun t => decide (now - t < w))).length
  · refine ⟨by simp [rateLimitStep, if_pos h], h, ?_⟩
    have hst : (rateLimitStep m w now ts).2 = ts.filter (fun t => decide (now - t < w)) := by
      simp [rateLimitStep, if_pos h]
    rw [hst]
    have hff : (ts.filter (fun t => decide (now - t < w))).filter
        (fun t => decide (nxt - t < w)) = ts.filter (fun t => decide (nxt - t < w)) := by
      rw [List.filter_filter]
      refine List.filter_congr ?_
      intro a _
      by_cases hh : nxt - a < w
      · have hnow : now - a < w := by omega
        simp [hh, hnow]
      · simp [hh]
    simp only [rateLimitStep, hff]
  · exfalso
    simp [rateLimitStep, if_neg h] at hrej

/-- Witness for C4: one stored timestamp, limit 1, request at the same
instant: rejected, and the state is the evicted list. -/
theorem rate_limit_reject_state_witness :
    (rateLimitStep 1 60 0 [0]).2 = [(0 : Int)].filter (fun t => (0 : Int) - t < 60) ∧
    1 ≤ ([(0 : Int)].filter (fun t => (0 : Int) - t < 60)).length ∧
    rateLimitStep 1 60 0 (rateLimitStep 1 60 0 [0]).2 = rateLimitStep 1 60 0 [0] :=
  rate_limit_reject_state 1 60 0 0 [0] (by decide) (by decide)

/-- C9: all rate-limited endpoints share the single per-address map
`request_times`; ten requests admitted on a 30-per-60s listing endpoint
within the window make the same address's next request to a 10-per-60s
endpoint (`login_cliente`) rejected, and the address's stored list is the
one every endpoint consults. -/
theorem shared_rate_state_cross_endpoint (ip : String) (ts : List Int) (tl : Int)
    (h10 : ts.length = 10)
    (hpair : ∀ t ∈ ts, ∀ u ∈ ts, t - u < 60)
    (hl : ∀ t ∈ ts, tl - t < 60) :
    (runShared ip 60 (ts.map (fun t => (30, t)) ++ [(10, tl)]) (fun _ => [])).1 =
      List.replicate 10 true ++ [false] ∧
    (runShared ip 60 (ts.map (fun t => (30, t)) ++ [(10, tl)]) (fun _ => [])).2 ip = ts := by
  have hbr := runShared_eq_rlRun ip 60 (ts.map (fun t => (30, t)) ++ [(10, tl)]) (fun _ => [])
  have hfirst := rlRun_uniform_allowed 60 30 ts []
    (by intro a _ b hb; simp at hb) hpair (by simp [h10])
  have hkeep : ts.filter (fun x => decide (tl - x < 60)) = ts :=
    List.filter_eq_self.mpr (fun x hx => decide_eq_true (hl x hx))
  have hstepl : rateLimitStep 10 60 tl ts = (false, ts) := by
    simp only [rateLimitStep]
    rw [hkeep, if_pos (by omega)]
  have hsplit := rlRun_append 60 (ts.map (fun t => (30, t))) [(10, tl)] []
  have hrun : rlRun 60 (ts.map (fun t => (30, t)) ++ [(10, tl)]) [] =
      (List.replicate 10 true ++ [false], ts) := by
    rw [hsplit, hfirst]
    simp only [List.nil_append, rlRun, hstepl, h10]
  exact ⟨by rw [hbr.1, hrun], by rw [hbr.2, hrun]⟩

/-- Witness for C9: ten listing requests at time 0 followed by a login
request at time 1, all from one address. -/
theorem shared_rate_state_cross_endpoint_witness :
    (runShared "10.0.0.1" 60
        ((List.replicate 10 (0 : Int)).map (fun t => (30, t)) ++ [(10, 1)]) (fun _ => [])).1 =
      List.replicate 10 true ++ [false] ∧
    (runShared "10.0.0.1" 60
        ((List.replicate 10 (0 : Int)).map (fun t => (30, t)) ++ [(10, 1)])
        (fun _ => [])).2 "10.0.0.1" = List.replicate 10 (0 : Int) :=
  shared_rate_state_cross_endpoint "10.0.0.1" (List.replicate 10 0) 1 (by decide)
    (by decide) (by decide)

/-- C5 counterexample: the second-iteration `sanitizar_input` (src/app.py
lines 583-589) does not strip SQL punctuation — on input `";"` its output
still contains a semicolon, contradicting the claim that the output
contains none of `;` `"` `'`. -/
theorem sanitize_v2_semicolon_cex : (';') ∈ (sanitizar_input_v2 (some ";")).data := by
  decide

/-- C5 (amended): both iterations map `None` to `""` and never fail; the
first iteration returns the trimmed, HTML-escaped input with `;` `"` `'`
deleted, so its output contains none of those characters; the second
iteration only trims and escapes. -/
theorem sanitize_characterization :
    sanitizar_input none = "" ∧ sanitizar_input_v2 none = "" ∧
    (∀ t, sanitizar_input (some t) =
      ⟨(htmlEscape (pyStrip t)).data.filter (fun c => !isSqlPunct c)⟩) ∧
    (∀ t, (sanitizar_input (some t)).data.all (fun c => !isSqlPunct c) = true) ∧
    (∀ t, sanitizar_input_v2 (some t) = htmlEscape (pyStrip t)) := by
  refine ⟨rfl, rfl, fun t => rfl, ?_, fun t => rfl⟩
  intro t
  rw [List.all_eq_true]
  intro c hc
  exact (List.mem_filter.mp hc).2

/-- C10: the first-iteration sanitizer strips the terminating semicolon of
every entity `html.escape` just produced (`&` becomes `&amp`, `<` becomes
`&lt`, and so on), and no output of it ever contains a semicolon, so the
output is not a well-formed HTML-entity encoding of the input. -/
theorem sanitize_entity_semicolon_stripped :
    sanitizar_input (some "&") = "&amp" ∧
    sanitizar_input (some "<") = "&lt" ∧
    sanitizar_input (some ">") = "&gt" ∧
    sanitizar_input (some (String.singleton (Char.ofNat 34))) = "&quot" ∧
    sanitizar_input (some (String.singleton (Char.ofNat 39))) = "&#x27" ∧
    (∀ s, (sanitizar_input (some s)).data.all (fun c => c != ';') = true) := by
  refine ⟨by decide, by decide, by decide, by decide, by decide, ?_⟩
  intro s
  rw [List.all_eq_true]
  intro c hc
  have h := (List.mem_filter.mp hc).2
  rw [Bool.not_eq_true'] at h
  simp only [isSqlPunct, Bool.or_eq_false_iff, decide_eq_false_iff_not] at h
  simp only [bne_iff_ne, ne_eq]
  exact h.1.1

/-- C6 counterexample: the second-iteration `validar_telefone` (src/app.py
lines 596-599) accepts the 10-digit string starting with 0, contradicting
the claim that every 10- or 11-digit string starting with 0 is rejected. -/
theorem telefone_v2_leading_zero_cex : validar_telefone_v2 "0123456789" = true := by
  decide

/-- C6 (amended): the first-iteration `validar_telefone` accepts exactly
the strings whose stripped digits number 10 or 11 with first digit 1..9;
the second iteration checks only the length, with no first-digit
restriction. -/
theorem telefone_characterization :
    (∀ s, validar_telefone s = true ↔ telefone_spec s) ∧
    (∀ s, validar_telefone_v2 s = true ↔
      ((stripDigits s).length = 10 ∨ (stripDigits s).length = 11)) ∧
    validar_telefone "11987654321" = true ∧ validar_telefone "123" = false := by
  refine ⟨?_, ?_, by decide, by decide⟩
  · intro s
    simp only [validar_telefone, telefone_spec, stripDigits]
    cases hE : s.data.filter Char.isDigit with
    | nil => simp
    | cons c rest =>
      have hcdig : c.isDigit = true := by
        have hmem : c ∈ s.data.filter Char.isDigit := by
          rw [hE]; exact List.mem_cons_self _ _
        exact (List.mem_filter.mp hmem).2
      simp only [List.map_cons, List.length_map, List.length_cons, List.headD_cons,
        Bool.and_eq_true, Bool.or_eq_true, decide_eq_true_eq]
      exact and_congr_right (fun _ => digit_char_mem c hcdig)
  · intro s
    simp only [validar_telefone_v2, stripDigits, List.length_map,
      Bool.or_eq_true, decide_eq_true_eq]

theorem validar_cpf_eq_spec (s : String) : validar_cpf s = validate_cpf_spec s := by
  by_cases h1 : (stripDigits s).length = 11
  · by_cases h2 : stripDigits s = List.replicate 11 ((stripDigits s).headD 0)
    · simp only [validar_cpf, validate_cpf_spec]
      rw [if_neg (not_not_intro h1), if_pos h2, decide_eq_true h2]
      simp
    · obtain ⟨a, b, c, d, e, f, g, h, i, j, k, hds⟩ := exists_eleven _ h1
      simp only [validar_cpf, validate_cpf_spec]
      rw [hds] at h2 ⊢
      rw [if_neg (by simp), if_neg h2, decide_eq_false h2,
        (cpf_digits_eq a b c d e f g h i j k).1, (cpf_digits_eq a b c d e f g h i j k).2]
      have hlen11 : decide (List.length [a, b, c, d, e, f, g, h, i, j, k] = 11) = true := by
        simp
      rw [hlen11]
      simp
  · simp only [validar_cpf, validate_cpf_spec]
    rw [if_pos h1, decide_eq_false h1]
    simp

theorem validar_cpf_mutation (s : String) (i d : Nat) (hvalid : validar_cpf s = true)
    (hi : i = 9 ∨ i = 10) (hd10 : d < 10) (hne : d ≠ (stripDigits s).getD i 0) :
    validar_cpf (digitsToString ((stripDigits s).set i d)) = false := by
  have hlen : (stripDigits s).length = 11 := by
    by_contra hc
    simp only [validar_cpf] at hvalid
    rw [if_pos hc] at hvalid
    simp at hvalid
  have hrep : ¬ (stripDigits s = List.replicate 11 ((stripDigits s).headD 0)) := by
    intro hc
    simp only [validar_cpf] at hvalid
    rw [if_neg (not_not_intro hlen), if_pos hc] at hvalid
    simp at hvalid
  have hchecks : cpfCheckDigit (stripDigits s) 9 = (stripDigits s).getD 9 0 ∧
      cpfCheckDigit (stripDigits s) 10 = (stripDigits s).getD 10 0 := by
    simp only [validar_cpf, if_neg (not_not_intro hlen), if_neg hrep, Bool.and_eq_true,
      decide_eq_true_eq] at hvalid
    exact hvalid
  have hset_mem : ∀ x ∈ (stripDigits s).set i d, x < 10 := by
    intro x hx
    rcases List.mem_or_eq_of_mem_set hx with hx | hx
    · exact stripDigits_lt_ten s x hx
    · rw [hx]; exact hd10
  have hround : stripDigits (digitsToString ((stripDigits s).set i d)) =
      (stripDigits s).set i d := stripDigits_digitsToString _ hset_mem
  have hlen' : ((stripDigits s).set i d).length = 11 := by simp [hlen]
  by_cases hrep' : (stripDigits s).set i d =
      List.replicate 11 (((stripDigits s).set i d).headD 0)
  · simp only [validar_cpf, hround]
    rw [if_neg (not_not_intro hlen'), if_pos hrep']
  · simp only [validar_cpf, hround, if_neg (not_not_intro hlen'), if_neg hrep']
    rcases hi with rfl | rfl
    · have e1 : cpfCheckDigit ((stripDigits s).set 9 d) 9 = cpfCheckDigit (stripDigits s) 9 :=
        cpfCheckDigit_set _ 9 9 d (le_refl _)
      have e2 : ((stripDigits s).set 9 d).getD 9 0 = d :=
        getD_set_self_zero _ 9 d (by omega)
      rw [e1, e2, hchecks.1]
      have hf : decide ((stripDigits s).getD 9 0 = d) = false := decide_eq_false (Ne.symm hne)
      rw [hf, Bool.false_and]
    · have e1 : cpfCheckDigit ((stripDigits s).set 10 d) 9 = cpfCheckDigit (stripDigits s) 9 :=
        cpfCheckDigit_set _ 10 9 d (by omega)
      have e1b : ((stripDigits s).set 10 d).getD 9 0 = (stripDigits s).getD 9 0 :=
        getD_set_ne_zero _ 10 9 d (by omega)
      have e2 : cpfCheckDigit ((stripDigits s).set 10 d) 10 = cpfCheckDigit (stripDigits s) 10 :=
        cpfCheckDigit_set _ 10 10 d (le_refl _)
      have e3 : ((stripDigits s).set 10 d).getD 10 0 = d :=
        getD_set_self_zero _ 10 d (by omega)
      rw [e1, e1b, e2, e3, hchecks.2]
      have hf : decide ((stripDigits s).getD 10 0 = d) = false := decide_eq_false (Ne.symm hne)
      rw [hf, Bool.and_false]

/-- C3: `validar_cpf` coincides with the specification's description of
the CPF checksum (`validate_cpf_spec`: 11 digits, not all identical,
weights 10..2 and 11..2, remainder mapped to zero when at least 10), and
mutating either check digit of any accepted CPF to a different digit
yields a rejected string. -/
theorem cpf_valid_iff_and_mutation :
    (∀ s, validar_cpf s = validate_cpf_spec s) ∧
    (∀ s i d, validar_cpf s = true → (i = 9 ∨ i = 10) → d < 10 →
      d ≠ (stripDigits s).getD i 0 →
      validar_cpf (digitsToString ((stripDigits s).set i d)) = false) :=
  ⟨validar_cpf_eq_spec, validar_cpf_mutation⟩

/-- Witness for C3: 52998224725 is accepted by both formulations, and
replacing its first check digit 2 by 0 yields a rejected string. -/
theorem cpf_valid_iff_and_mutation_witness :
    validar_cpf "52998224725" = validate_cpf_spec "52998224725" ∧
    validar_cpf "52998224725" = true ∧
    validar_cpf (digitsToString ((stripDigits "52998224725").set 9 0)) = false :=
  ⟨cpf_valid_iff_and_mutation.1 "52998224725", by decide,
    cpf_valid_iff_and_mutation.2 "52998224725" 9 0 (by decide) (Or.inl rfl) (by decide)
      (by decide)⟩

/-- C7: when the registration pre-checks pass but a row with the same
(sanitised) email or CPF already exists, both iterations of
`cadastrar_cliente` answer 400 with the duplicate-key message, leave the
`clientes` table exactly as it was (so its row count is unchanged), and
establish no session. -/
theorem cadastro_duplicado_unchanged :
    (∀ form db, v1PreChecks form = true →
      (∃ r ∈ db, r.email = sanitizar_input (some form.email) ∨
        r.cpf = sanitizar_input (some form.cpf)) →
      cadastrar_cliente form db = ⟨400, "Email ou CPF já cadastrado.", db, none⟩) ∧
    (∀ form db, v2PreChecks form = true →
      (∃ r ∈ db, r.email = sanitizar_input_v2 (some form.email) ∨
        r.cpf = sanitizar_input_v2 (some form.cpf)) →
      cadastrar_cliente_v2 form db = ⟨400, "Email ou CPF já cadastrado.", db, none⟩) := by
  constructor
  · intro form db hpre hdup
    simp only [v1PreChecks, Bool.and_eq_true, Bool.not_eq_true', decide_eq_false_iff_not,
      decide_eq_true_eq] at hpre
    obtain ⟨⟨⟨⟨⟨⟨⟨hreq, hconf⟩, hsenha⟩, hemail⟩, htel⟩, hcpf⟩, hage⟩, hgen⟩ := hpre
    obtain ⟨g, hg⟩ := Option.isSome_iff_exists.mp hgen
    have hany : db.any (fun r => r.email = sanitizar_input (some form.email) ∨
        r.cpf = sanitizar_input (some form.cpf)) = true := by
      obtain ⟨r, hr, hor⟩ := hdup
      exact List.any_eq_true.mpr ⟨r, hr, decide_eq_true hor⟩
    cases hpy : pyInt (sanitizar_input (some form.idade)) with
    | none => rw [hpy] at hage; simp at hage
    | some v =>
      rw [hpy] at hage
      simp only [Bool.not_eq_true', decide_eq_false_iff_not] at hage
      simp only [cadastrar_cliente]
      rw [if_neg hreq, if_neg (not_not_intro hconf), if_neg (not_not_intro hsenha),
        if_neg (not_not_intro hemail), if_neg (not_not_intro htel),
        if_neg (not_not_intro hcpf), hpy]
      simp only []
      rw [if_neg hage, hg]
      simp only []
      rw [if_pos hany]
  · intro form db hpre hdup
    simp only [v2PreChecks, Bool.and_eq_true, Bool.not_eq_true', decide_eq_false_iff_not,
      decide_eq_true_eq] at hpre
    obtain ⟨⟨⟨hreq, hconf⟩, hlen6⟩, hemail⟩ := hpre
    have hany : db.any (fun r => r.email = sanitizar_input_v2 (some form.email) ∨
        r.cpf = sanitizar_input_v2 (some form.cpf)) = true := by
      obtain ⟨r, hr, hor⟩ := hdup
      exact List.any_eq_true.mpr ⟨r, hr, decide_eq_true hor⟩
    simp only [cadastrar_cliente_v2]
    rw [if_neg hreq, if_neg (not_not_intro hconf), if_neg hlen6,
      if_neg (not_not_intro hemail), if_pos hany]

/-- Witness for C7: a fully valid registration whose CPF matches the
stored row `rowBea` is refused by both handler iterations with the table
and session untouched. -/
theorem cadastro_duplicado_unchanged_witness :
    cadastrar_cliente formAna [rowBea] = ⟨400, "Email ou CPF já cadastrado.", [rowBea], none⟩ ∧
    cadastrar_cliente_v2 formAna [rowBea] =
      ⟨400, "Email ou CPF já cadastrado.", [rowBea], none⟩ :=
  ⟨cadastro_duplicado_unchanged.1 formAna [rowBea] (by decide)
      ⟨rowBea, List.mem_singleton.mpr rfl, Or.inr (by decide)⟩,
    cadastro_duplicado_unchanged.2 formAna [rowBea] (by decide)
      ⟨rowBea, List.mem_singleton.mpr rfl, Or.inr (by decide)⟩⟩

/-- C8 counterexample: the second-iteration `cadastrar_cliente` performs
no age validation — `formFive` declares age 5 and is accepted (status
200) with a row of age 5 inserted, contradicting the claim that such a
request receives a 400 and no row. -/
theorem cadastro_v2_age_cex :
    (cadastrar_cliente_v2 formFive []).status = 200 ∧
    (cadastrar_cliente_v2 formFive []).db.map (fun r => r.idade) = [(5 : Int)] ∧
    v1BadAge formFive = true := by
  decide

/-- C8 (amended): the first-iteration `cadastrar_cliente` enforces the
age invariant — a request whose `idade` is non-numeric or outside
[18,120] gets a 400 response and leaves the table unchanged, and every
row the handler adds has age within [18,120]. -/
theorem cadastro_age_invariant :
    ∀ (form : ClientForm) (db : List Cliente),
      (v1BadAge form = true →
        (cadastrar_cliente form db).status = 400 ∧ (cadastrar_cliente form db).db = db) ∧
      (∀ r ∈ (cadastrar_cliente form db).db, r ∈ db ∨ (18 ≤ r.idade ∧ r.idade ≤ 120)) := by
  intro form db
  constructor
  · intro hbad
    simp only [cadastrar_cliente]
    split
    · exact ⟨rfl, rfl⟩
    split
    · exact ⟨rfl, rfl⟩
    split
    · exact ⟨rfl, rfl⟩
    split
    · exact ⟨rfl, rfl⟩
    split
    · exact ⟨rfl, rfl⟩
    split
    · exact ⟨rfl, rfl⟩
    split
    · exact ⟨rfl, rfl⟩
    next v hpy =>
      split
      · exact ⟨rfl, rfl⟩
      next hrange =>
        exfalso
        simp only [v1BadAge, hpy, Bool.not_eq_true', decide_eq_true_eq] at hbad
        exact hrange hbad
  · intro r hr
    simp only [cadastrar_cliente] at hr
    split at hr
    · exact Or.inl hr
    split at hr
    · exact Or.inl hr
    split at hr
    · exact Or.inl hr
    split at hr
    · exact Or.inl hr
    split at hr
    · exact Or.inl hr
    split at hr
    · exact Or.inl hr
    split at hr
    · exact Or.inl hr
    next v hpy =>
      split at hr
      · exact Or.inl hr
      next hrange =>
        split at hr
        · exact Or.inl hr
        split at hr
        · exact Or.inl hr
        · rcases List.mem_append.mp hr with h | h
          · exact Or.inl h
          · have hrn := List.mem_singleton.mp h
            rw [hrn]
            exact Or.inr ⟨show (18 : Int) ≤ v by omega, show v ≤ (120 : Int) by omega⟩

/-- Witness for C8: age 5 is refused by the first-iteration handler with
the table unchanged, and the row inserted for the valid `formAna` has its
age within [18,120]. -/
theorem cadastro_age_invariant_witness :
    ((cadastrar_cliente formFive []).status = 400 ∧ (cadastrar_cliente formFive []).db = []) ∧
    (rowAna ∈ ([] : List Cliente) ∨ (18 ≤ rowAna.idade ∧ rowAna.idade ≤ 120)) :=
  ⟨(cadastro_age_invariant formFive []).1 (by decide),
    (cadastro_age_invariant formAna []).2 rowAna (by decide)⟩

end TechSuppliers
